import Mathlib

/-!
Shallow embedding of the DuckDB dynamic tile service
(`src/Streamlit/tile_server.py` and `src/Streamlit/app.py`).

Conventions of the embedding:
* Python floats are modelled as real numbers (`ℝ`) in the tile math and as
  rational numbers (`ℚ`) in the JSON / rounding layer, where all the
  operations involved are exact.
* JSON values are modelled by the inductive type `Json`; the Python value
  `None` is identified with JSON `null` (as `flask.jsonify` does).
* Fallible Python code (an uncaught exception escaping a handler) is
  modelled with `Except Unit`; `Except.error ()` marks an exception that
  propagates out of the handler (Flask then produces a 500 response).
* The DuckDB store is abstracted by an oracle (`ConnOutcome`) saying
  whether acquiring the thread-local connection succeeds and, if so, what
  the single `fetchone` of the tile query returns.  The side effects a
  handler performs on its way to the response are recorded in a trace of
  `Effect`s, in program order.
-/

namespace TileService

/-! ### JSON values (bodies of `/update-view`, `/get-bounds` and app-side) -/

/-- JSON values, as parsed by `flask.request.get_json` / produced by
`flask.jsonify`.  Python `None` is identified with `Json.null`. -/
inductive Json where
  | null
  | bool (b : Bool)
  | num (q : ℚ)
  | str (s : String)
  | arr (elems : List Json)
  | obj (fields : List (String × Json))

/-- Python truthiness of a JSON value (`if not bounds:` in `update_view`):
`None`, `False`, `0`, `""`, `[]` and an empty dict are falsy, everything
else is truthy. -/
def truthy : Json → Bool
  | .null => false
  | .bool b => b
  | .num q => !(q == 0)
  | .str s => !(s == "")
  | .arr es => !es.isEmpty
  | .obj fs => !fs.isEmpty

/-- Lookup of a key in a JSON object field list (first match wins, as in a
Python dict where keys are unique anyway). -/
def dictGet (fields : List (String × Json)) (k : String) : Option Json :=
  match fields with
  | [] => none
  | (k₀, v) :: rest => if k₀ = k then some v else dictGet rest k

/-- Python `d[k] = v` on a dict: replace the value in place if the key is
present, append the key at the end otherwise (insertion order preserved). -/
def dictSet (fields : List (String × Json)) (k : String) (v : Json) :
    List (String × Json) :=
  match fields with
  | [] => [(k, v)]
  | (k₀, v₀) :: rest =>
      if k₀ = k then (k, v) :: rest else (k₀, v₀) :: dictSet rest k v

/-- Python `data.get(k)` on a dict body: the stored value, or `None`
(modelled as `Json.null`) when the key is absent. -/
def pyGet (fields : List (String × Json)) (k : String) : Json :=
  (dictGet fields k).getD .null

/-! ### HTTP responses -/

/-- Byte strings (tile payloads); Python `b''` is `[]`. -/
abbrev Bytes := List Nat

/-- A tile-endpoint HTTP response: status code, body, the `mimetype`
passed to `flask.Response`, and the optional `Cache-Control` header. -/
structure HttpResponse where
  status : Nat
  body : Bytes
  mimetype : String
  cacheControl : Option String
deriving DecidableEq

/-- A JSON-endpoint HTTP response (from `flask.jsonify`). -/
structure JsonResponse where
  status : Nat
  body : Json

/-! ### The tile endpoint `GET /tiles/z/x/y.pbf` (`tile_server.get_tile`) -/

/-- Outcome of `cursor.execute(query).fetchone()`:
either the cursor/query raises, or it returns `None` (no row) or a single
row whose one column is the MVT blob (possibly SQL `NULL`). -/
inductive QueryOutcome where
  | raises
  | fetched (row : Option (Option Bytes))

/-- Outcome of the store interaction available to a request: acquiring the
thread-local DuckDB connection (`get_connection`, line 57, *outside* the
`try`) either raises, or yields a connection whose tile query behaves as
the recorded `QueryOutcome`. -/
inductive ConnOutcome where
  | raises
  | conn (q : QueryOutcome)

/-- Side effects of `get_tile` on its way to a response, in program order. -/
inductive Effect where
  | computeBbox
  | acquireConn
  | runQuery
deriving DecidableEq

/-- `tile_data = result[0] if result and result[0] else b''` (line 86):
the blob when a row was fetched with a truthy (non-`NULL`, non-empty)
column, else `b''`. -/
def tileData : Option (Option Bytes) → Bytes
  | some (some b) => if !b.isEmpty then b else []
  | some none => []
  | none => []

/-- `get_tile` (tile_server.py lines 47-102): zoom below 10 short-circuits
to an empty `application/x-protobuf` response before the bbox is computed
or the connection acquired; otherwise the bbox is computed and the
connection acquired (an exception there propagates, since line 57 is
outside the `try`), then the query runs inside `try`: a query/cursor error
is caught and degrades to an empty `application/x-protobuf` response,
while a fetched row is served as `application/vnd.mapbox-vector-tile`
with `Cache-Control: public, max-age=3600`. -/
def get_tile (z x y : ℕ) (store : ConnOutcome) :
    List Effect × Except Unit HttpResponse :=
  if z < 10 then
    ([], .ok ⟨200, [], "application/x-protobuf", none⟩)
  else
    match store with
    | .raises => ([.computeBbox, .acquireConn], .error ())
    | .conn .raises =>
        ([.computeBbox, .acquireConn, .runQuery],
         .ok ⟨200, [], "application/x-protobuf", none⟩)
    | .conn (.fetched row) =>
        ([.computeBbox, .acquireConn, .runQuery],
         .ok ⟨200, tileData row, "application/vnd.mapbox-vector-tile",
              some "public, max-age=3600"⟩)

/-! ### The view-state register and its endpoints
(`tile_server.update_view`, `tile_server.get_bounds`)

The register is `current_stats['bounds']` (line 15), initially `None`;
we model it as `Option Json` (`none` = never written). -/

/-- Body of the 400 response of `update_view`. -/
def errBody : Json :=
  .obj [("status", .str "error"), ("message", .str "No bounds provided")]

/-- Body of the 200 acknowledgment of `update_view`. -/
def okBody : Json := .obj [("status", .str "ok")]

/-- `update_view` (tile_server.py lines 111-126).  `data.get` on a
non-dict body raises (`AttributeError`); a falsy `bounds` yields the 400
response with the register untouched; a truthy dict `bounds` gets
`bounds['zoom'] = zoom` and is stored whole into the register by the
single assignment of line 125; `bounds['zoom'] = zoom` on a truthy
non-dict `bounds` raises (`TypeError`) before anything is stored. -/
def update_view (body : Json) (reg : Option Json) :
    Except Unit (Option Json × JsonResponse) :=
  match body with
  | .obj data =>
      let bounds := pyGet data "bounds"
      let zoom := pyGet data "zoom"
      if truthy bounds then
        match bounds with
        | .obj bfields =>
            .ok (some (.obj (dictSet bfields "zoom" zoom)), ⟨200, okBody⟩)
        | _ => .error ()
      else
        .ok (reg, ⟨400, errBody⟩)
  | _ => .error ()

/-- `get_bounds` (tile_server.py lines 129-133): always 200 with
`{'bounds': current_stats.get('bounds')}`. -/
def get_bounds (reg : Option Json) : JsonResponse :=
  ⟨200, .obj [("bounds", reg.getD .null)]⟩

/-- The register after one `update_view` request with the given body:
unchanged when the request returns 400 or dies in an exception (the
line-125 assignment is never reached), else the freshly stored value. -/
def applyUpdate (reg : Option Json) (body : Json) : Option Json :=
  match update_view body reg with
  | .ok (reg₁, _) => reg₁
  | .error _ => reg

/-- The register after a sequence of completed `update_view` requests, in
their completion order. -/
def runUpdates (reg : Option Json) (bodies : List Json) : Option Json :=
  bodies.foldl applyUpdate reg

/-- The value a single `update_view` body writes into the register, if
any: present exactly when the body is a dict whose `bounds` entry is a
truthy dict, and then equal to that dict with `zoom` set. -/
def storedValue (body : Json) : Option Json :=
  match body with
  | .obj data =>
      match pyGet data "bounds" with
      | .obj bfields =>
          if truthy (.obj bfields) then
            some (.obj (dictSet bfields "zoom" (pyGet data "zoom")))
          else none
      | _ => none
  | _ => none

/-! ### The stats consumer (`app.py`, `main` lines 144-163 and
`make_bounds_key` lines 147-156) -/

/-- Python `round(q, ndigits)` on exact values: round half to even
(banker's rounding) at `ndigits` decimal digits. -/
def pyRound (q : ℚ) (ndigits : ℕ) : ℚ :=
  let scaled : ℚ := q * 10 ^ ndigits
  let f : ℤ := ⌊scaled⌋
  let r : ℚ := scaled - f
  let n : ℤ :=
    if r < 1 / 2 then f
    else if 1 / 2 < r then f + 1
    else if f % 2 = 0 then f else f + 1
  (n : ℚ) / 10 ^ ndigits

/-- A rounded bounds key: `(north, south, east, west, zoom)` as produced
by `make_bounds_key`. -/
abbrev BKey := ℚ × ℚ × ℚ × ℚ × ℚ

/-- Python `round` applied to a JSON value: numbers round, booleans count
as integers (`bool` is an `int` in Python), anything else raises
`TypeError`. -/
def jsonToNum : Json → Except Unit ℚ
  | .num q => .ok q
  | .bool b => .ok (if b then 1 else 0)
  | _ => .error ()

/-- Python `b.get(k, default)` used by `make_bounds_key`: on a dict the
stored value or the default, on anything else an `AttributeError`. -/
def pyGetD (j : Json) (k : String) (d : Json) : Except Unit Json :=
  match j with
  | .obj fields => .ok ((dictGet fields k).getD d)
  | _ => .error ()

/-- `make_bounds_key` (app.py lines 147-156): `None` (or any falsy value)
maps to `None`; otherwise the five coordinates are fetched with default
`0` and rounded — north, south, east, west to 4 decimals and zoom to 1
decimal. -/
def make_bounds_key (b : Option Json) : Except Unit (Option BKey) :=
  match b with
  | none => .ok none
  | some bj =>
      if truthy bj then do
        let n ← jsonToNum (← pyGetD bj "north" (.num 0))
        let s ← jsonToNum (← pyGetD bj "south" (.num 0))
        let e ← jsonToNum (← pyGetD bj "east" (.num 0))
        let w ← jsonToNum (← pyGetD bj "west" (.num 0))
        let zm ← jsonToNum (← pyGetD bj "zoom" (.num 0))
        .ok (some (pyRound n 4, pyRound s 4, pyRound e 4, pyRound w 4,
                   pyRound zm 1))
      else .ok none

/-- The session state of the Streamlit script that survives reruns:
`st.session_state.last_bounds` and `st.session_state.stats`. -/
structure AppState where
  last_bounds : Option BKey
  stats : ℚ × ℚ
deriving DecidableEq

/-- One autorefresh poll of `main` (app.py lines 144-163), parameterised
by what `query_stats` would return for the polled bounds: compute the
rounded key of the polled bounds and, only if it differs from
`last_bounds`, store the key and recompute the stats.  The returned flag
records whether `query_stats` ran. -/
def pollStep (queryStats : Option Json → ℚ × ℚ) (s : AppState)
    (bounds : Option Json) : Except Unit (AppState × Bool) :=
  match make_bounds_key bounds with
  | .error _ => .error ()
  | .ok bounds_key =>
      if bounds_key ≠ s.last_bounds then
        .ok (⟨bounds_key, queryStats bounds⟩, true)
      else
        .ok (s, false)

/-! ### Tile coordinate mapper (`tile_server.tile_to_bbox`)

Python floats are modelled as real numbers; `math.atan`, `math.sinh`,
`math.pi` and `math.degrees` become their exact real counterparts. -/

/-- `math.degrees`: radians to degrees. -/
noncomputable def degrees (r : ℝ) : ℝ := r * 180 / Real.pi

/-- `tile_to_bbox` (tile_server.py lines 34-43): slippy-map tile
coordinates to a WGS84 bounding box `(min_lon, min_lat, max_lon,
max_lat)` with `n = 2.0 ** z`, linear longitude and inverse Web-Mercator
latitude `degrees(atan(sinh(pi * (1 - 2 * row / n))))` evaluated at rows
`y` (top edge, `max_lat`) and `y + 1` (bottom edge, `min_lat`). -/
noncomputable def tile_to_bbox (z x y : ℕ) : ℝ × ℝ × ℝ × ℝ :=
  let n : ℝ := 2 ^ z
  let min_lon : ℝ := x / n * 360 - 180
  let max_lon : ℝ := (x + 1) / n * 360 - 180
  let max_lat : ℝ :=
    degrees (Real.arctan (Real.sinh (Real.pi * (1 - 2 * y / n))))
  let min_lat : ℝ :=
    degrees (Real.arctan (Real.sinh (Real.pi * (1 - 2 * (y + 1) / n))))
  (min_lon, min_lat, max_lon, max_lat)

/-! ## Helper lemmas about the register fold -/

/-- One completed `update_view` acts on the register by a whole-value
overwrite: the stored value (if the request stores one) or the unchanged
previous register. -/
theorem applyUpdate_eq (reg : Option Json) (body : Json) :
    applyUpdate reg body = Option.or (storedValue body) reg := by
  cases body with
  | obj data =>
      cases hbnd : pyGet data "bounds" with
      | obj bfields =>
          by_cases ht : truthy (.obj bfields) = true
          · simp [applyUpdate, update_view, storedValue, hbnd, ht, Option.or]
          · simp [applyUpdate, update_view, storedValue, hbnd, ht, Option.or]
      | null => simp [applyUpdate, update_view, storedValue, hbnd, truthy, Option.or]
      | bool b =>
          cases b <;>
            simp [applyUpdate, update_view, storedValue, hbnd, truthy, Option.or]
      | num q =>
          by_cases hq : q = 0 <;>
            simp [applyUpdate, update_view, storedValue, hbnd, truthy, hq, Option.or]
      | str s =>
          by_cases hs : s = "" <;>
            simp [applyUpdate, update_view, storedValue, hbnd, truthy, hs, Option.or]
      | arr es =>
          cases es <;>
            simp [applyUpdate, update_view, storedValue, hbnd, truthy, Option.or, List.isEmpty]
  | null => simp [applyUpdate, update_view, storedValue, Option.or]
  | bool b => simp [applyUpdate, update_view, storedValue, Option.or]
  | num q => simp [applyUpdate, update_view, storedValue, Option.or]
  | str s => simp [applyUpdate, update_view, storedValue, Option.or]
  | arr es => simp [applyUpdate, update_view, storedValue, Option.or]

/-- The last element of a list, if present, is a member. -/
theorem getLast?_mem_of_eq_some {α : Type} :
    ∀ {l : List α} {a : α}, l.getLast? = some a → a ∈ l
  | [c], a, h => by simp at h; simp [h]
  | c :: d :: t, a, h => by
      rw [List.getLast?_cons_cons] at h
      exact List.mem_cons_of_mem c (getLast?_mem_of_eq_some h)

/-- The register after a sequence of completed updates is the last stored
value if any update stored one, and the starting register otherwise. -/
theorem runUpdates_eq (bodies : List Json) (reg : Option Json) :
    runUpdates reg bodies =
      Option.or (bodies.filterMap storedValue).getLast? reg := by
  induction bodies generalizing reg with
  | nil => simp [runUpdates]
  | cons b t ih =>
      have h1 : runUpdates reg (b :: t) = runUpdates (applyUpdate reg b) t := rfl
      rw [h1, ih, applyUpdate_eq]
      rw [List.filterMap_cons]
      cases hsb : storedValue b with
      | none => simp [Option.or]
      | some v =>
          cases hft : t.filterMap storedValue with
          | nil => simp [Option.or]
          | cons c l =>
              rw [List.getLast?_cons_cons]
              cases hcl : (c :: l).getLast? with
              | none => simp [List.getLast?_eq_none_iff] at hcl
              | some a => simp [Option.or]

/-! ## Claim theorems for the HTTP layer -/

/-- Claim C2: for every request `GET /tiles/z/x/y.pbf` with `z < 10`,
`get_tile` short-circuits to a 200 response with a zero-byte body,
performing no effect at all — the bounding box is not computed, no
database connection is acquired and no query is executed — whatever the
state of the store. -/
theorem get_tile_low_zoom_short_circuit (z x y : ℕ) (hz : z < 10)
    (store : ConnOutcome) :
    get_tile z x y store =
      ([], .ok ⟨200, [], "application/x-protobuf", none⟩) := by
  simp [get_tile, hz]

/-- Claim C2 witness: the short-circuit at tile 5/0/0 against a store
whose connection would raise. -/
theorem get_tile_low_zoom_short_circuit_witness :
    get_tile 5 0 0 ConnOutcome.raises =
      ([], .ok ⟨200, [], "application/x-protobuf", none⟩) :=
  get_tile_low_zoom_short_circuit 5 0 0 (by decide) ConnOutcome.raises

/-- Claim C4 counterexample: at tile 12/0/0, when acquiring the store
connection raises (`get_connection()` on line 57 sits *outside* the
`try`), `get_tile` returns no response at all — the exception escapes the
handler (Flask turns it into a 500 server error), refuting the claim that
every store failure is caught and answered with HTTP 200. -/
theorem get_tile_conn_error_propagates :
    (get_tile 12 0 0 ConnOutcome.raises).2 = Except.error () := rfl

/-- Claim C4 (amended): an error raised by the cursor or the query inside
the `try` block is caught and answered with HTTP 200, an empty body and
no internal error detail; but an error while acquiring the store
connection itself propagates out of the handler instead of being
caught. -/
theorem get_tile_error_degrade (z x y : ℕ) (hz : 10 ≤ z) :
    (get_tile z x y (.conn .raises)).2 =
      .ok ⟨200, [], "application/x-protobuf", none⟩ ∧
    (get_tile z x y .raises).2 = Except.error () := by
  have hz10 : ¬z < 10 := not_lt.mpr hz
  exact ⟨by simp [get_tile, hz10], by simp [get_tile, hz10]⟩

/-- Claim C4 witness: the caught query error and the propagated
connection error at tile 12/0/0. -/
theorem get_tile_error_degrade_witness :
    (get_tile 12 0 0 (.conn .raises)).2 =
      .ok ⟨200, [], "application/x-protobuf", none⟩ ∧
    (get_tile 12 0 0 ConnOutcome.raises).2 = Except.error () :=
  get_tile_error_degrade 12 0 0 (by decide)

/-- Claim C7 counterexample: the zoom &lt; 10 short-circuit response of
`/tiles/5/0/0.pbf` carries no `Cache-Control` header at all (and its
content type is the generic `application/x-protobuf`), refuting the claim
that every tile response carries the one-hour cache directive. -/
theorem get_tile_short_circuit_lacks_cache_header :
    (get_tile 5 0 0 (ConnOutcome.conn (QueryOutcome.fetched none))).2 =
      Except.ok ⟨200, [], "application/x-protobuf", none⟩ := rfl

/-- Claim C7 (amended): only the successful-query tile responses carry
the vector-tile content type `application/vnd.mapbox-vector-tile` and
`Cache-Control: public, max-age=3600`; the zoom &lt; 10 short-circuit and
the caught-error responses carry `application/x-protobuf` and no cache
directive. -/
theorem get_tile_headers (z x y : ℕ) (store : ConnOutcome) :
    (z < 10 →
      get_tile z x y store =
        ([], .ok ⟨200, [], "application/x-protobuf", none⟩)) ∧
    (10 ≤ z → ∀ row,
      (get_tile z x y (.conn (.fetched row))).2 =
        .ok ⟨200, tileData row, "application/vnd.mapbox-vector-tile",
             some "public, max-age=3600"⟩) ∧
    (10 ≤ z →
      (get_tile z x y (.conn .raises)).2 =
        .ok ⟨200, [], "application/x-protobuf", none⟩) := by
  refine ⟨fun hz => by simp [get_tile, hz], fun hz row => ?_, fun hz => ?_⟩ <;>
    simp [get_tile, not_lt.mpr hz]

/-- Claim C7 witness: a successful tile response at 12/3/7 carries the
vector-tile content type and the one-hour cache directive. -/
theorem get_tile_headers_witness :
    (get_tile 12 3 7 (.conn (.fetched (some (some [1, 2]))))).2 =
      .ok ⟨200, [1, 2], "application/vnd.mapbox-vector-tile",
           some "public, max-age=3600"⟩ :=
  (get_tile_headers 12 3 7 ConnOutcome.raises).2.1 (by decide)
    (some (some [1, 2]))

/-- Claim C8 counterexample: a body that does contain a `bounds` value —
the empty object — is nevertheless answered with 400 and the register is
left untouched, because line 120 tests Python truthiness
(`if not bounds`), not presence. -/
theorem update_view_400_despite_bounds_present :
    update_view (.obj [("bounds", .obj []), ("zoom", .num 3)]) none =
      .ok (none, ⟨400, errBody⟩) := rfl

/-- Claim C8 (amended): `update_view` answers 400 with the JSON error
status, leaving the register unchanged, if and only if the `bounds` value
of the JSON body is absent or falsy (null, false, 0, the empty string,
the empty array or the empty object); when `bounds` is a truthy JSON
object it overwrites the register with the submitted bounds (with `zoom`
set) and returns the acknowledgment `⟨'status': 'ok'⟩` with HTTP 200. -/
theorem update_view_status_amended (data : List (String × Json))
    (reg : Option Json) :
    (truthy (pyGet data "bounds") = false →
      update_view (.obj data) reg = .ok (reg, ⟨400, errBody⟩)) ∧
    (∀ bfields, pyGet data "bounds" = .obj bfields →
      truthy (.obj bfields) = true →
      update_view (.obj data) reg =
        .ok (some (.obj (dictSet bfields "zoom" (pyGet data "zoom"))),
             ⟨200, okBody⟩)) ∧
    (∀ out, update_view (.obj data) reg = .ok out → out.2.status = 400 →
      truthy (pyGet data "bounds") = false) := by
  refine ⟨fun hf => by simp [update_view, hf], fun bfields hbf ht => ?_, ?_⟩
  · simp [update_view, hbf, ht]
  · intro out hok h400
    by_contra htr
    rw [Bool.not_eq_false] at htr
    cases hbnd : pyGet data "bounds" with
    | obj bfields =>
        rw [hbnd] at htr
        simp [update_view, hbnd, htr] at hok
        rw [← hok] at h400
        simp at h400
    | null => rw [hbnd] at htr; simp [truthy] at htr
    | bool b => rw [hbnd] at htr; simp [update_view, hbnd, htr] at hok
    | num q => rw [hbnd] at htr; simp [update_view, hbnd, htr] at hok
    | str s => rw [hbnd] at htr; simp [update_view, hbnd, htr] at hok
    | arr es => rw [hbnd] at htr; simp [update_view, hbnd, htr] at hok

/-- Claim C8 witness: a truthy object `bounds` is stored (with `zoom`
set to null, since absent) and acknowledged with 200. -/
theorem update_view_status_amended_witness :
    update_view (.obj [("bounds", .obj [("north", .num 1)])]) none =
      .ok (some (.obj [("north", .num 1), ("zoom", .null)]), ⟨200, okBody⟩) :=
  (update_view_status_amended [("bounds", .obj [("north", .num 1)])]
    none).2.1 [("north", .num 1)] rfl rfl

/-- Claim C9: starting from the initial register (no update ever
completed), `GET /get-bounds` answers `⟨"bounds": null⟩`, and after any
sequence of completed `/update-view` requests it answers exactly the
value stored by the most recent request that stored one (last write
wins) — still `null` when none ever stored a value. -/
theorem get_bounds_last_write_wins (bodies : List Json) :
    get_bounds (runUpdates none bodies) =
      ⟨200, .obj [("bounds",
        ((bodies.filterMap storedValue).getLast?).getD .null)]⟩ := by
  have h : get_bounds (runUpdates none bodies) =
      ⟨200, .obj [("bounds", (runUpdates none bodies).getD .null)]⟩ := rfl
  rw [h, runUpdates_eq]
  cases (bodies.filterMap storedValue).getLast? <;> rfl

/-- Claim C5: an execution of N concurrent `/update-view` requests is an
arbitrary completion order of their register writes — each request's only
access to shared state is the single whole-value assignment of line 125
(atomic under the interpreter lock), all other steps act on request-local
data.  After all N requests (each carrying a truthy object `bounds`)
complete in any order, the register holds — and `/get-bounds` returns —
exactly the complete stored value of one of the N requests, never a mix
of fields from two different requests. -/
theorem concurrent_updates_return_one_submitted_value (bodies : List Json)
    (hne : bodies ≠ [])
    (hall : ∀ b ∈ bodies, (storedValue b).isSome = true) :
    ∃ b ∈ bodies, runUpdates none bodies = storedValue b ∧
      get_bounds (runUpdates none bodies) =
        ⟨200, .obj [("bounds", (storedValue b).getD .null)]⟩ := by
  have hfm : bodies.filterMap storedValue ≠ [] := by
    cases bodies with
    | nil => exact absurd rfl hne
    | cons b t =>
        have hb := hall b (List.mem_cons_self b t)
        rw [Option.isSome_iff_exists] at hb
        obtain ⟨v, hv⟩ := hb
        simp [List.filterMap_cons, hv]
  cases hlast : (bodies.filterMap storedValue).getLast? with
  | none => exact absurd (List.getLast?_eq_none_iff.mp hlast) hfm
  | some v =>
      have hvmem : v ∈ bodies.filterMap storedValue :=
        getLast?_mem_of_eq_some hlast
      rw [List.mem_filterMap] at hvmem
      obtain ⟨b, hb, hsb⟩ := hvmem
      refine ⟨b, hb, ?_, ?_⟩
      · rw [runUpdates_eq, hlast, hsb]; rfl
      · rw [runUpdates_eq, hlast, hsb]; rfl

/-- Claim C5 witness: two concurrent updates completing in this order
leave the register holding the second one's complete value. -/
theorem concurrent_updates_return_one_submitted_value_witness :
    ∃ b ∈ [Json.obj [("bounds", .obj [("north", .num 1)]), ("zoom", .num 11)],
           Json.obj [("bounds", .obj [("north", .num 2)]), ("zoom", .num 12)]],
      runUpdates none
          [Json.obj [("bounds", .obj [("north", .num 1)]), ("zoom", .num 11)],
           Json.obj [("bounds", .obj [("north", .num 2)]), ("zoom", .num 12)]] =
        storedValue b ∧
      get_bounds (runUpdates none
          [Json.obj [("bounds", .obj [("north", .num 1)]), ("zoom", .num 11)],
           Json.obj [("bounds", .obj [("north", .num 2)]), ("zoom", .num 12)]]) =
        ⟨200, .obj [("bounds", (storedValue b).getD .null)]⟩ :=
  concurrent_updates_return_one_submitted_value _
    (by simp)
    (by intro b hb; simp at hb; rcases hb with h | h <;> subst h <;> rfl)

/-- Claim C10 counterexample: `bounds` may be truthy without being an
object — e.g. the array `[1]` — and then `bounds['zoom'] = zoom` on line
124 raises `TypeError`: the request dies in an uncaught exception and
nothing is stored, refuting the round trip for truthy bounds of
arbitrary shape. -/
theorem update_view_truthy_array_raises :
    truthy (.arr [.num 1]) = true ∧
    update_view (.obj [("bounds", .arr [.num 1]), ("zoom", .num 2)]) none =
      .error () := ⟨rfl, rfl⟩

/-- Claim C10 (amended): for every truthy JSON **object** `bounds` (no
field validation — arbitrary keys, non-numeric values, extra fields) and
any `zoom` (absent is stored as null), a `POST /update-view` followed by
`GET /get-bounds` with no intervening update returns exactly the
submitted bounds value with the key `zoom` set on it (appended when
absent, overwritten in place when present). -/
theorem set_then_get_roundtrip (data : List (String × Json))
    (reg : Option Json) (bfields : List (String × Json))
    (hb : pyGet data "bounds" = .obj bfields)
    (ht : truthy (.obj bfields) = true) :
    ∃ reg₁, update_view (.obj data) reg = .ok (reg₁, ⟨200, okBody⟩) ∧
      get_bounds reg₁ =
        ⟨200, .obj [("bounds",
          .obj (dictSet bfields "zoom" (pyGet data "zoom")))]⟩ := by
  refine ⟨some (.obj (dictSet bfields "zoom" (pyGet data "zoom"))), ?_, rfl⟩
  simp [update_view, hb, ht]

/-- Claim C10 witness: a bounds object with an extra non-numeric field
and no zoom in the body round-trips with `zoom` appended as null. -/
theorem set_then_get_roundtrip_witness :
    ∃ reg₁,
      update_view
          (.obj [("bounds", .obj [("north", .num 52), ("extra", .str "x")])])
          none =
        .ok (reg₁, ⟨200, okBody⟩) ∧
      get_bounds reg₁ =
        ⟨200, .obj [("bounds",
          .obj [("north", .num 52), ("extra", .str "x"), ("zoom", .null)])]⟩ :=
  set_then_get_roundtrip
    [("bounds", .obj [("north", .num 52), ("extra", .str "x")])] none
    [("north", .num 52), ("extra", .str "x")] rfl rfl

/-- Claim C3: the aggregate stats are recomputed in a poll exactly when
the rounded key of the polled bounds (north, south, east, west to 4
decimals, zoom to 1 decimal) differs from the key stored by the previous
computation, and two consecutive polls whose bounds have equal rounded
keys run at most one stats query between them. -/
theorem stats_memoization (queryStats : Option Json → ℚ × ℚ) (s : AppState)
    (b₁ b₂ : Option Json) (k₁ k₂ : Option BKey)
    (h₁ : make_bounds_key b₁ = .ok k₁) (h₂ : make_bounds_key b₂ = .ok k₂)
    (hk : k₁ = k₂)
    (s₁ : AppState) (q₁ : Bool)
    (hp₁ : pollStep queryStats s b₁ = .ok (s₁, q₁))
    (s₂ : AppState) (q₂ : Bool)
    (hp₂ : pollStep queryStats s₁ b₂ = .ok (s₂, q₂)) :
    (q₁ = true ↔ k₁ ≠ s.last_bounds) ∧ q₂ = false := by
  rw [pollStep, h₁] at hp₁
  rw [pollStep, h₂] at hp₂
  by_cases hd : k₁ = s.last_bounds
  · simp [hd] at hp₁
    obtain ⟨hs₁, hq₁⟩ := hp₁
    rw [← hs₁, ← hk, hd] at hp₂
    simp at hp₂
    exact ⟨by simp [← hq₁, hd], hp₂.2⟩
  · simp [hd] at hp₁
    obtain ⟨hs₁, hq₁⟩ := hp₁
    have hlast : s₁.last_bounds = k₁ := by rw [← hs₁]
    rw [← hk, hlast] at hp₂
    simp at hp₂
    exact ⟨by simp [← hq₁, hd], hp₂.2⟩

/-- Claim C3 witness: two consecutive polls with equal keys, against a
session whose stored key differs from the polled one: the first poll
queries, the second does not. -/
theorem stats_memoization_witness :
    ((true = true) ↔ ((none : Option BKey) ≠ some (0, 0, 0, 0, 0))) ∧
    false = false :=
  stats_memoization (fun _ => (7, 9)) ⟨some (0, 0, 0, 0, 0), (0, 0)⟩
    none none none none rfl rfl rfl
    ⟨none, (7, 9)⟩ true (by rfl)
    ⟨none, (7, 9)⟩ false (by rfl)

/-! ## Numeric helper lemmas for the tile math

The Taylor-style bounds `u - u³/3 < arctan u < u - u³/3 + u⁵/5` (for
`u > 0`) together with rational bounds on `exp π` pin down
`degrees (arctan (sinh π))`, the Web-Mercator latitude limit. -/

/-- For positive `u` the cubic Taylor polynomial underestimates
`arctan`. -/
theorem cubic_lt_arctan {u : ℝ} (hu : 0 < u) :
    u - u ^ 3 / 3 < Real.arctan u := by
  have key : StrictMonoOn (fun x : ℝ => Real.arctan x - (x - x ^ 3 / 3))
      (Set.Ici 0) := by
    apply strictMonoOn_of_deriv_pos (convex_Ici 0)
    · exact (Real.continuous_arctan.sub
        (continuous_id.sub ((continuous_pow 3).div_const 3))).continuousOn
    · intro x hx
      rw [interior_Ici, Set.mem_Ioi] at hx
      have hd : HasDerivAt (fun x : ℝ => Real.arctan x - (x - x ^ 3 / 3))
          (1 / (1 + x ^ 2) - (1 - (3 : ℕ) * x ^ 2 / 3)) x := by
        have h1 : HasDerivAt (fun x : ℝ => x - x ^ 3 / 3)
            (1 - (3 : ℕ) * x ^ 2 / 3) x := by
          simpa using (hasDerivAt_id x).sub ((hasDerivAt_pow 3 x).div_const 3)
        exact (Real.hasDerivAt_arctan x).sub h1
      rw [hd.deriv]
      have h2 : (0 : ℝ) < 1 + x ^ 2 := by positivity
      have h3 : (1 : ℝ) - (3 : ℕ) * x ^ 2 / 3 = 1 - x ^ 2 := by push_cast; ring
      rw [h3, sub_pos, lt_div_iff h2]
      nlinarith [pow_pos hx 4]
  have h0 := key Set.left_mem_Ici (Set.mem_Ici.mpr hu.le) hu
  simp only [Real.arctan_zero] at h0
  norm_num at h0
  linarith

/-- For positive `u` the quintic Taylor polynomial overestimates
`arctan`. -/
theorem arctan_lt_quintic {u : ℝ} (hu : 0 < u) :
    Real.arctan u < u - u ^ 3 / 3 + u ^ 5 / 5 := by
  have key : StrictMonoOn
      (fun x : ℝ => x - x ^ 3 / 3 + x ^ 5 / 5 - Real.arctan x)
      (Set.Ici 0) := by
    apply strictMonoOn_of_deriv_pos (convex_Ici 0)
    · exact (((continuous_id.sub ((continuous_pow 3).div_const 3)).add
        ((continuous_pow 5).div_const 5)).sub
        Real.continuous_arctan).continuousOn
    · intro x hx
      rw [interior_Ici, Set.mem_Ioi] at hx
      have hd : HasDerivAt
          (fun x : ℝ => x - x ^ 3 / 3 + x ^ 5 / 5 - Real.arctan x)
          (1 - (3 : ℕ) * x ^ 2 / 3 + (5 : ℕ) * x ^ 4 / 5 - 1 / (1 + x ^ 2))
          x := by
        have h1 : HasDerivAt (fun x : ℝ => x - x ^ 3 / 3 + x ^ 5 / 5)
            (1 - (3 : ℕ) * x ^ 2 / 3 + (5 : ℕ) * x ^ 4 / 5) x := by
          simpa using
            ((hasDerivAt_id x).sub ((hasDerivAt_pow 3 x).div_const 3)).add
              ((hasDerivAt_pow 5 x).div_const 5)
        exact h1.sub (Real.hasDerivAt_arctan x)
      rw [hd.deriv]
      have h2 : (0 : ℝ) < 1 + x ^ 2 := by positivity
      have h3 : (1 : ℝ) - (3 : ℕ) * x ^ 2 / 3 + (5 : ℕ) * x ^ 4 / 5 =
          1 - x ^ 2 + x ^ 4 := by push_cast; ring
      rw [h3, sub_pos, div_lt_iff h2]
      nlinarith [pow_pos hx 6]
  have h0 := key Set.left_mem_Ici (Set.mem_Ici.mpr hu.le) hu
  simp only [Real.arctan_zero] at h0
  norm_num at h0
  linarith

/-- Rational upper bound on `exp π`, via `π < 3.141593`, the degree-5
Taylor remainder bound at `0.141593` and the nine-digit bound on
`exp 1`. -/
theorem exp_pi_lt : Real.exp Real.pi < 23.14072 := by
  have h1 : Real.exp Real.pi < Real.exp 3.141593 :=
    Real.exp_lt_exp.mpr Real.pi_lt_d6
  have h2 : Real.exp (3.141593 : ℝ) = Real.exp 1 ^ 3 * Real.exp 0.141593 := by
    rw [show (3.141593 : ℝ) = 3 + 0.141593 by norm_num, Real.exp_add]
    rw [show Real.exp 3 = Real.exp 1 ^ 3 by rw [← Real.exp_nat_mul]; norm_num]
  have h3 : Real.exp (0.141593 : ℝ) < 1.152108 := by
    have h := @Real.exp_bound' 0.141593 (by norm_num) (by norm_num) 5
      (by norm_num)
    simp [Finset.sum_range_succ, Nat.factorial] at h
    norm_num at h
    linarith
  have h4 : Real.exp 1 ^ 3 < 2.7182818286 ^ 3 :=
    pow_lt_pow_left₀ Real.exp_one_lt_d9 (Real.exp_pos 1).le (by norm_num)
  calc Real.exp Real.pi < Real.exp 1 ^ 3 * Real.exp 0.141593 := h2 ▸ h1
    _ < 2.7182818286 ^ 3 * 1.152108 :=
        mul_lt_mul'' h4 h3 (by positivity) (Real.exp_pos _).le
    _ < 23.14072 := by norm_num

/-- Rational lower bound on `exp π`, via `3.141592 < π`, the degree-5
Taylor partial sum at `0.141592` and the nine-digit bound on `exp 1`. -/
theorem exp_pi_gt : 23.14065 < Real.exp Real.pi := by
  have h1 : Real.exp 3.141592 < Real.exp Real.pi :=
    Real.exp_lt_exp.mpr Real.pi_gt_d6
  have h2 : Real.exp (3.141592 : ℝ) = Real.exp 1 ^ 3 * Real.exp 0.141592 := by
    rw [show (3.141592 : ℝ) = 3 + 0.141592 by norm_num, Real.exp_add]
    rw [show Real.exp 3 = Real.exp 1 ^ 3 by rw [← Real.exp_nat_mul]; norm_num]
  have h3 : (1.1521055 : ℝ) < Real.exp 0.141592 := by
    have h := @Real.sum_le_exp_of_nonneg 0.141592 (by norm_num) 5
    simp [Finset.sum_range_succ, Nat.factorial] at h
    norm_num at h
    linarith
  have h4 : (2.7182818283 : ℝ) ^ 3 < Real.exp 1 ^ 3 :=
    pow_lt_pow_left₀ Real.exp_one_gt_d9 (by norm_num) (by norm_num)
  calc (23.14065 : ℝ) < 2.7182818283 ^ 3 * 1.1521055 := by norm_num
    _ < Real.exp 1 ^ 3 * Real.exp 0.141592 :=
        mul_lt_mul'' h4 h3 (by norm_num) (by norm_num)
    _ = Real.exp 3.141592 := h2.symm
    _ < Real.exp Real.pi := h1

/-- Rational lower bound on `sinh π`. -/
theorem sinh_pi_gt : 11.548717 < Real.sinh Real.pi := by
  rw [Real.sinh_eq, Real.exp_neg]
  have h1 := exp_pi_gt
  have hinv : (Real.exp Real.pi)⁻¹ < 0.0432141 := by
    have h2 : (Real.exp Real.pi)⁻¹ < (23.14065 : ℝ)⁻¹ :=
      inv_lt_inv_of_lt (by norm_num) h1
    have h3 : ((23.14065 : ℝ))⁻¹ < 0.0432141 := by norm_num
    linarith
  linarith

/-- Rational upper bound on `sinh π`. -/
theorem sinh_pi_lt : Real.sinh Real.pi < 11.548754 := by
  rw [Real.sinh_eq, Real.exp_neg]
  have h1 := exp_pi_lt
  have hinv : (0.0432138 : ℝ) < (Real.exp Real.pi)⁻¹ := by
    have h2 : (23.14072 : ℝ)⁻¹ < (Real.exp Real.pi)⁻¹ :=
      inv_lt_inv_of_lt (Real.exp_pos Real.pi) h1
    have h3 : (0.0432138 : ℝ) < ((23.14072 : ℝ))⁻¹ := by norm_num
    linarith
  linarith

/-- The Web-Mercator latitude limit `degrees (arctan (sinh π))` lies
strictly between 85.0505 and 85.0515 (its value is ≈ 85.0511). -/
theorem arctan_sinh_pi_degrees_bounds :
    85.0505 < Real.arctan (Real.sinh Real.pi) * 180 / Real.pi ∧
    Real.arctan (Real.sinh Real.pi) * 180 / Real.pi < 85.0515 := by
  have hS1 := sinh_pi_gt
  have hS2 := sinh_pi_lt
  have hSpos : 0 < Real.sinh Real.pi := by linarith
  have harc : Real.arctan (Real.sinh Real.pi) =
      Real.pi / 2 - Real.arctan (Real.sinh Real.pi)⁻¹ := by
    have h := Real.arctan_inv_of_pos hSpos
    linarith
  have hupos : 0 < (Real.sinh Real.pi)⁻¹ := inv_pos.mpr hSpos
  have hu1 : (0.086589 : ℝ) < (Real.sinh Real.pi)⁻¹ := by
    have h2 : (11.548754 : ℝ)⁻¹ < (Real.sinh Real.pi)⁻¹ :=
      inv_lt_inv_of_lt hSpos hS2
    have h3 : (0.086589 : ℝ) < (11.548754 : ℝ)⁻¹ := by norm_num
    linarith
  have hu2 : (Real.sinh Real.pi)⁻¹ < 0.086590 := by
    have h2 : (Real.sinh Real.pi)⁻¹ < (11.548717 : ℝ)⁻¹ :=
      inv_lt_inv_of_lt (by norm_num) hS1
    have h3 : (11.548717 : ℝ)⁻¹ < 0.086590 := by norm_num
    linarith
  have ha1 := cubic_lt_arctan hupos
  have ha2 := arctan_lt_quintic hupos
  have hc1 : (Real.sinh Real.pi)⁻¹ ^ 3 < 0.086590 ^ 3 :=
    pow_lt_pow_left₀ hu2 hupos.le (by norm_num)
  have hc2 : (0.086589 : ℝ) ^ 3 < (Real.sinh Real.pi)⁻¹ ^ 3 :=
    pow_lt_pow_left₀ hu1 (by norm_num) (by norm_num)
  have hq1 : (Real.sinh Real.pi)⁻¹ ^ 5 < 0.086590 ^ 5 :=
    pow_lt_pow_left₀ hu2 hupos.le (by norm_num)
  have e1 : (0.00064921 : ℝ) < (0.086589 : ℝ) ^ 3 := by norm_num
  have e2 : (0.086590 : ℝ) ^ 3 < 0.0006493 := by norm_num
  have e3 : (0.086590 : ℝ) ^ 5 < 0.00000487 := by norm_num
  have hA1 : (0.086372 : ℝ) < Real.arctan (Real.sinh Real.pi)⁻¹ := by linarith
  have hA2 : Real.arctan (Real.sinh Real.pi)⁻¹ < 0.086375 := by linarith
  have hpi1 : (3.141592 : ℝ) < Real.pi := Real.pi_gt_d6
  have hpi2 : Real.pi < 3.141593 := Real.pi_lt_d6
  constructor
  · rw [harc, lt_div_iff Real.pi_pos]
    nlinarith
  · rw [harc, div_lt_iff Real.pi_pos]
    nlinarith

/-! ## Claim theorems for the tile math -/

/-- Claim C1: for every zoom `z` and valid column/row, `tile_to_bbox`
returns `(minLon, minLat, maxLon, maxLat)` given by the linear longitude
formulas and the inverse Web-Mercator latitude formulas with `n = 2^z`;
in particular `tile_to_bbox 0 0 0` is the full world extent: `minLon =
-180`, `maxLon = 180`, `minLat = -maxLat`, and `maxLat =
degrees (arctan (sinh π)) ≈ 85.0511` (proved to lie in
`(85.0505, 85.0515)`). -/
theorem tile_to_bbox_formula_and_world_extent (z x y : ℕ)
    (hx : x < 2 ^ z) (hy : y < 2 ^ z) :
    tile_to_bbox z x y =
      ((x : ℝ) / 2 ^ z * 360 - 180,
       degrees (Real.arctan (Real.sinh
         (Real.pi * (1 - 2 * ((y : ℝ) + 1) / 2 ^ z)))),
       ((x : ℝ) + 1) / 2 ^ z * 360 - 180,
       degrees (Real.arctan (Real.sinh
         (Real.pi * (1 - 2 * (y : ℝ) / 2 ^ z))))) ∧
    (tile_to_bbox 0 0 0).1 = -180 ∧
    (tile_to_bbox 0 0 0).2.2.1 = 180 ∧
    (tile_to_bbox 0 0 0).2.1 = -(tile_to_bbox 0 0 0).2.2.2 ∧
    85.0505 < (tile_to_bbox 0 0 0).2.2.2 ∧
    (tile_to_bbox 0 0 0).2.2.2 < 85.0515 := by
  refine ⟨rfl, ?_, ?_, ?_, ?_, ?_⟩
  · simp [tile_to_bbox]
  · norm_num [tile_to_bbox]
  · simp only [tile_to_bbox, degrees]
    norm_num
    ring
  · have h := arctan_sinh_pi_degrees_bounds.1
    simp only [tile_to_bbox, degrees]
    norm_num
    convert h using 3
    norm_num
  · have h := arctan_sinh_pi_degrees_bounds.2
    simp only [tile_to_bbox, degrees]
    norm_num
    convert h using 3
    norm_num

/-- Claim C1 witness: the theorem instantiated at the root tile. -/
theorem tile_to_bbox_formula_and_world_extent_witness :
    tile_to_bbox 0 0 0 =
      (((0 : ℕ) : ℝ) / 2 ^ (0 : ℕ) * 360 - 180,
       degrees (Real.arctan (Real.sinh
         (Real.pi * (1 - 2 * (((0 : ℕ) : ℝ) + 1) / 2 ^ (0 : ℕ))))),
       (((0 : ℕ) : ℝ) + 1) / 2 ^ (0 : ℕ) * 360 - 180,
       degrees (Real.arctan (Real.sinh
         (Real.pi * (1 - 2 * ((0 : ℕ) : ℝ) / 2 ^ (0 : ℕ)))))) ∧
    (tile_to_bbox 0 0 0).1 = -180 ∧
    (tile_to_bbox 0 0 0).2.2.1 = 180 ∧
    (tile_to_bbox 0 0 0).2.1 = -(tile_to_bbox 0 0 0).2.2.2 ∧
    85.0505 < (tile_to_bbox 0 0 0).2.2.2 ∧
    (tile_to_bbox 0 0 0).2.2.2 < 85.0515 :=
  tile_to_bbox_formula_and_world_extent 0 0 0 (by decide) (by decide)

/-- Claim C6: every valid tile has `minLon < maxLon` and `minLat <
maxLat`, horizontally adjacent tiles share the exact longitude edge
`maxLon z x y = minLon z (x+1) y`, and vertically adjacent tiles share
the exact latitude edge `minLat z x y = maxLat z x (y+1)`. -/
theorem tile_bbox_ordered_and_adjacent (z x y : ℕ)
    (hx : x < 2 ^ z) (hy : y < 2 ^ z) :
    (tile_to_bbox z x y).1 < (tile_to_bbox z x y).2.2.1 ∧
    (tile_to_bbox z x y).2.1 < (tile_to_bbox z x y).2.2.2 ∧
    (tile_to_bbox z x y).2.2.1 = (tile_to_bbox z (x + 1) y).1 ∧
    (tile_to_bbox z x y).2.1 = (tile_to_bbox z x (y + 1)).2.2.2 := by
  have hn : (0 : ℝ) < 2 ^ z := by positivity
  refine ⟨?_, ?_, ?_, ?_⟩
  · simp only [tile_to_bbox]
    have h : (x : ℝ) / 2 ^ z < ((x : ℝ) + 1) / 2 ^ z :=
      (div_lt_div_right hn).mpr (by linarith)
    nlinarith
  · simp only [tile_to_bbox, degrees]
    have hdiv : (y : ℝ) / 2 ^ z < ((y : ℝ) + 1) / 2 ^ z :=
      (div_lt_div_right hn).mpr (by linarith)
    have harg : Real.pi * (1 - 2 * ((y : ℝ) + 1) / 2 ^ z) <
        Real.pi * (1 - 2 * (y : ℝ) / 2 ^ z) := by
      have hp := Real.pi_pos
      rw [mul_lt_mul_left hp]
      rw [div_lt_div_iff hn hn] at hdiv
      rw [sub_lt_sub_iff_left]
      rw [div_lt_div_iff hn hn]
      nlinarith
    have h2 := Real.arctan_strictMono (Real.sinh_lt_sinh.mpr harg)
    have hp := Real.pi_pos
    gcongr
  · simp only [tile_to_bbox]
    push_cast
    ring
  · simp only [tile_to_bbox]
    push_cast
    ring_nf

/-- Claim C6 witness: the theorem instantiated at tile 1/0/0. -/
theorem tile_bbox_ordered_and_adjacent_witness :
    (tile_to_bbox 1 0 0).1 < (tile_to_bbox 1 0 0).2.2.1 ∧
    (tile_to_bbox 1 0 0).2.1 < (tile_to_bbox 1 0 0).2.2.2 ∧
    (tile_to_bbox 1 0 0).2.2.1 = (tile_to_bbox 1 (0 + 1) 0).1 ∧
    (tile_to_bbox 1 0 0).2.1 = (tile_to_bbox 1 0 (0 + 1)).2.2.2 :=
  tile_bbox_ordered_and_adjacent 1 0 0 (by decide) (by decide)

end TileService
